import Mathlib

/-!
Verification of the connection-probe engine of the firebreak firewall test
harness: a shallow embedding of `src/conn/mod.rs`, `src/conn/os.rs` and the
scoped-execution primitive of `src/os.rs`.

Kernel and scheduler behaviour (results of `bind`, `connect`, `send`,
`recv_from`, `setns`, the random cookie, whether the 2 s deadline elapsed,
and whether the server task had already completed when the abort handle
fired) is supplied by explicit environment records; each syscall result is a
function of exactly the arguments the code passes to it.  Rust panics
(`assert!`, `assert_eq!`, `unreachable!`) are modelled by a distinguished
`panic` / `panicked` value, kept apart from `io::Error` results.
-/

namespace Firebreak

/-- `std::net::IpAddr`: a v4 or v6 address (the numeric payload is opaque). -/
inductive IpAddr
  | v4 (a : Nat)
  | v6 (a : Nat)
deriving DecidableEq

/-- The address family of a socket, chosen from an `IpAddr`. -/
inductive AddrFamily
  | v4
  | v6
deriving DecidableEq

/-- Family of an address, as matched by `TcpSocket::new_v4` / `new_v6` dispatch. -/
def IpAddr.family : IpAddr → AddrFamily
  | .v4 _ => .v4
  | .v6 _ => .v6

/-- `std::net::SocketAddr`: an address plus a port, as returned by
`accept` / `recv_from`; `.ip` is Rust's `SocketAddr::ip()`. -/
structure SocketAddr where
  ip : IpAddr
  port : Nat
deriving DecidableEq

/-- `std::io::Error`, observed through `raw_os_error()`: `some code` for an
errno-backed error, `none` for a synthetic one. -/
structure IoError where
  raw : Option Int
deriving DecidableEq

deriving instance DecidableEq for Except

/-- `libc::ECONNREFUSED` on Linux. -/
def ECONNREFUSED : Int := 111

/-- `ConnSpec` from `src/conn/mod.rs`: `Tcp { port: u16 } | Udp { port: u16 }`. -/
inductive ConnSpec
  | Tcp (port : Nat)
  | Udp (port : Nat)
deriving DecidableEq

/-- The port carried by a `ConnSpec`. -/
def ConnSpec.port : ConnSpec → Nat
  | .Tcp p => p
  | .Udp p => p

/-- Well-formedness of a `ConnSpec` value: the port fits in a `u16`.
This is the only constraint the Rust type imposes. -/
def ConnSpec.wf (s : ConnSpec) : Prop := s.port < 65536

instance (s : ConnSpec) : Decidable s.wf := by
  unfold ConnSpec.wf
  infer_instance

/-- `ConnEffect` from `src/conn/mod.rs` (named `ConnResult` at its use sites
in `src/conn/os.rs`): `Ok { source_addr } | Refused | Unreachable`. -/
inductive ConnEffect
  | Ok (source_addr : IpAddr)
  | Refused
  | Unreachable
deriving DecidableEq

/-- `SentCookie { cookie: u128 }` from `src/conn/os.rs`. -/
structure SentCookie where
  cookie : Nat
deriving DecidableEq

/-- `ClientStatus` from `src/conn/os.rs`. -/
inductive ClientStatus
  | SentCookie (s : SentCookie)
  | Refused
deriving DecidableEq

/-- `ReceivedCookie { cookie: u128, peer_addr: IpAddr }` from `src/conn/os.rs`. -/
structure ReceivedCookie where
  cookie : Nat
  peer_addr : IpAddr
deriving DecidableEq

/-- `ServerStatus` from `src/conn/os.rs`. -/
inductive ServerStatus
  | ReceivedCookie (r : ReceivedCookie)
  | Aborted
deriving DecidableEq

/-- Result of running a task (a future or a worker-thread closure) to
completion: either its value, or a Rust panic. -/
inductive TaskResult (T : Type)
  | val (t : T)
  | panic
deriving DecidableEq

/-- Result of the coordinator: `Ok(effect)`, `Err(io_error)`, or a panic
(`assert_eq!` failure or `unreachable!`). -/
inductive ProbeResult
  | ok (r : ConnEffect)
  | err (e : IoError)
  | panicked
deriving DecidableEq

/-! ### Big-endian wire encoding of the `u128` cookie
`u128::to_be_bytes` / `write_u128` on the client side,
`u128::from_be_bytes` / `read_u128` on the server side. -/

/-- The low `k` base-256 digits of `n`, most significant first. -/
def natToBeBytes : Nat → Nat → List Nat
  | 0, _ => []
  | k + 1, n => natToBeBytes k (n / 256) ++ [n % 256]

/-- Big-endian byte-list decoding, as `u128::from_be_bytes` does for 16 bytes. -/
def natFromBeBytes (l : List Nat) : Nat :=
  l.foldl (fun acc b => acc * 256 + b) 0

/-- `u128::to_be_bytes`: the 16-byte big-endian encoding of a cookie. -/
def u128ToBeBytes (n : Nat) : List Nat := natToBeBytes 16 n

/-- `u128::from_be_bytes`: decode 16 bytes, big-endian. -/
def u128FromBeBytes (l : List Nat) : Nat := natFromBeBytes l

/-! ### Namespace-scoped execution (`OsNs::scoped`, `src/os.rs` lines 73-103)

`scoped` spawns a worker thread, runs `setns` there, then runs `f`; the
caller joins the worker and `unwrap`s, so a worker panic re-panics on the
calling thread.  `setnsResult` is the kernel's answer to the `setns` call;
`f` is forced only after `setns` succeeded. -/

/-- `OsNs::scoped`: on `setns` failure the worker returns the kernel error
before `f` is ever called; on success the caller gets exactly `f`'s result,
a panic of `f` included. -/
def OsNs.scoped {T : Type} (setnsResult : Except IoError Unit)
    (f : Unit → TaskResult (Except IoError T)) : TaskResult (Except IoError T) :=
  match setnsResult with
  | .error e => .val (.error e)
  | .ok _ => f ()

/-! ### Transport endpoint roles (`src/conn/os.rs` lines 180-287) -/

/-- Environment of `Tcp::client`: each field is the kernel's response to the
corresponding socket call, as a function of the arguments the code passes. -/
structure TcpClientEnv where
  newSocket : AddrFamily → Except IoError Unit
  connect : IpAddr → Nat → Except IoError Unit
  cookie : Nat
  write : List Nat → Except IoError Unit

/-- `Tcp::client` (lines 208-233): create a socket whose family follows
`target_addr` (the `_source_addr` parameter is unused), `connect` to
`(target_addr, port)`; `ECONNREFUSED` becomes `Refused`, success writes the
16-byte big-endian cookie and becomes `SentCookie`, and any other error is
returned as a fatal `io::Error`. -/
def Tcp.client (port : Nat) (_source_addr target_addr : IpAddr)
    (env : TcpClientEnv) : Except IoError ClientStatus :=
  match env.newSocket target_addr.family with
  | .error e => .error e
  | .ok _ =>
    match env.connect target_addr port with
    | .ok _ =>
      match env.write (u128ToBeBytes env.cookie) with
      | .ok _ => .ok (.SentCookie ⟨env.cookie⟩)
      | .error e => .error e
    | .error e =>
      if e.raw = some ECONNREFUSED then .ok .Refused else .error e

/-- Environment of `Udp::client`. -/
structure UdpClientEnv where
  bind : IpAddr → Nat → Except IoError Unit
  connect : IpAddr → Nat → Except IoError Unit
  cookie : Nat
  send : List Nat → Except IoError Unit
  takeError : Except IoError (Option IoError)

/-- `Udp::client` (lines 263-286): bind to `(source_addr, 0)`, connect to
`(target_addr, port)`, send the 16-byte big-endian cookie, then inspect the
socket's pending asynchronous error: `None` is `SentCookie`,
`Some(ECONNREFUSED)` is `Refused`, any other pending error is fatal.  Errors
of `bind`, `connect`, `send` and of `take_error` itself propagate via `?`. -/
def Udp.client (port : Nat) (source_addr target_addr : IpAddr)
    (env : UdpClientEnv) : Except IoError ClientStatus :=
  match env.bind source_addr 0 with
  | .error e => .error e
  | .ok _ =>
    match env.connect target_addr port with
    | .error e => .error e
    | .ok _ =>
      match env.send (u128ToBeBytes env.cookie) with
      | .error e => .error e
      | .ok _ =>
        match env.takeError with
        | .error e => .error e
        | .ok none => .ok (.SentCookie ⟨env.cookie⟩)
        | .ok (some e) =>
          if e.raw = some ECONNREFUSED then .ok .Refused else .error e

/-- Environment of `Udp::server`: the single datagram delivered by
`recv_from` (its full payload and the sender's socket address), or an error. -/
structure UdpServerEnv where
  recvFrom : Except IoError (List Nat × SocketAddr)

/-- `Udp::server` (lines 250-261): `recv_from` into a 16-byte buffer
pre-filled with zeros.  Per POSIX/tokio UDP semantics the returned size is
the number of bytes copied into the buffer, `min (payload length) 16`, and
excess bytes of a longer datagram are discarded.  `assert_eq!(size, 16)`
panics when the datagram is shorter than 16 bytes; otherwise the buffer (the
first 16 payload bytes) is decoded big-endian into the cookie and paired
with `peer_addr.ip()`. -/
def Udp.server (env : UdpServerEnv) : TaskResult (Except IoError ServerStatus) :=
  match env.recvFrom with
  | .error e => .val (.error e)
  | .ok (datagram, peer) =>
    let size := min datagram.length 16
    let buf := datagram.take 16 ++ List.replicate (16 - size) 0
    if size = 16 then
      .val (.ok (.ReceivedCookie ⟨u128FromBeBytes buf, peer.ip⟩))
    else
      .panic

/-! ### Probe coordinator (`OsNsConnector`, `src/conn/os.rs` lines 125-169)

`connect` binds the server first, wraps the server task in an
`Abortable`, runs the client with an `inspect` hook that fires the abort
handle on `Refused` or error, `try_join`s both, and reduces the joint
outcome.  The environment carries the three task results plus one
scheduling fact: whether the server task had already completed when the
abort handle fired (an abort of a completed `Abortable` has no effect).
Relative completion order of the two tasks is not otherwise modelled; when
both fail, the client's failure is reported, matching the argument order of
`try_join!(client, server)`. -/

/-- Events of one probe, in program order, used to state ordering claims. -/
inductive ProbeEvent
  | bindServer
  | startServer
  | startClient
  | abortServer
deriving DecidableEq

/-- Environment of one run of `OsNsConnector::connect`. -/
structure ConnectEnv where
  bindResult : Except IoError Unit
  clientResult : TaskResult (Except IoError ClientStatus)
  serverResult : TaskResult (Except IoError ServerStatus)
  serverDoneBeforeAbort : Bool

/-- The `inspect` hook on the client future (lines 151-156): the abort
handle fires exactly when the client completed with `Ok(Refused)` or with
an error. -/
def clientTriggersAbort : TaskResult (Except IoError ClientStatus) → Bool
  | .val (.ok (.SentCookie _)) => false
  | .val (.ok .Refused) => true
  | .val (.error _) => true
  | .panic => false

/-- The joined server status after the `Abortable` wrapper (lines 143-147):
an abort that lands while the server is still pending resolves the wrapper
to `Aborted`, which `unwrap_or_else` converts to `Ok(ServerStatus::Aborted)`;
otherwise the server's own result stands. -/
def serverJoined (env : ConnectEnv) : TaskResult (Except IoError ServerStatus) :=
  if clientTriggersAbort env.clientResult && !env.serverDoneBeforeAbort then
    .val (.ok .Aborted)
  else
    env.serverResult

/-- The joint-outcome reduction (lines 159-168): matching cookies give
`Ok { source_addr = peer }`, a cookie mismatch fails `assert_eq!`, the
`(Refused, Aborted)` cell gives `Refused`, and the two remaining cells hit
`unreachable!`. -/
def joinOutcomes : ClientStatus → ServerStatus → ProbeResult
  | .SentCookie tx, .ReceivedCookie rx =>
    if rx.cookie = tx.cookie then .ok (.Ok rx.peer_addr) else .panicked
  | .Refused, .Aborted => .ok .Refused
  | .SentCookie _, .Aborted => .panicked
  | .Refused, .ReceivedCookie _ => .panicked

/-- `try_join!(client, server)`: a panic of either task propagates, an error
of either task is returned (client first, per argument order), and two
successes are reduced by the outcome table. -/
def tryJoin : TaskResult (Except IoError ClientStatus) →
    TaskResult (Except IoError ServerStatus) → ProbeResult
  | .panic, _ => .panicked
  | .val (.error e), _ => .err e
  | .val (.ok _), .panic => .panicked
  | .val (.ok _), .val (.error e) => .err e
  | .val (.ok c), .val (.ok s) => joinOutcomes c s

/-- `OsNsConnector::connect` (lines 135-169), with its event trace.  A bind
error returns at the `?` on line 138: no task is started and the error is
the result.  Otherwise both tasks run and are joined. -/
def OsNsConnector.connect (env : ConnectEnv) : List ProbeEvent × ProbeResult :=
  match env.bindResult with
  | .error e => ([.bindServer], .err e)
  | .ok _ =>
    ([.bindServer, .startServer, .startClient] ++
        (if clientTriggersAbort env.clientResult then [.abortServer] else []),
      tryJoin env.clientResult (serverJoined env))

/-- The value `OsNsConnector::connect` returns (its trace forgotten). -/
def OsNsConnector.connectResult (env : ConnectEnv) : ProbeResult :=
  (OsNsConnector.connect env).2

/-- Environment of one `connect_with_timeout` run: the inner probe
environment plus whether the deadline elapsed before `connect` finished. -/
structure ProbeEnv where
  conn : ConnectEnv
  timedOut : Bool

/-- `OsNsConnector::connect_with_timeout` (lines 125-133): an elapsed
deadline is recovered by `unwrap_or_else` into `Ok(Unreachable)`; otherwise
the inner result (panic included) stands. -/
def OsNsConnector.connect_with_timeout (_duration : Nat) (env : ProbeEnv) :
    ProbeResult :=
  if env.timedOut then .ok .Unreachable
  else OsNsConnector.connectResult env.conn

/-- `Duration::from_secs(2)` on line 70 of `src/conn/os.rs`: the hard
per-probe deadline, in seconds. -/
def connectDuration : Nat := 2

/-- `OsNsConnPath::connect` (lines 65-80): dispatch on the spec's variant to
the transport's `connect_with_timeout`, always with the 2-second deadline;
the port travels inside the connector and no check is applied to it. -/
def OsNsConnPath.connect (spec : ConnSpec) (env : ProbeEnv) : ProbeResult :=
  match spec with
  | .Tcp _ => OsNsConnector.connect_with_timeout connectDuration env
  | .Udp _ => OsNsConnector.connect_with_timeout connectDuration env

/-! ### Helper lemmas -/

/-- Decoding after appending one byte shifts the accumulator by one digit. -/
theorem natFromBeBytes_append (l : List Nat) (b : Nat) :
    natFromBeBytes (l ++ [b]) = natFromBeBytes l * 256 + b := by
  simp [natFromBeBytes, List.foldl_append]

/-- Big-endian encoding to `k` bytes round-trips for every value below `256 ^ k`. -/
theorem natFromBeBytes_natToBeBytes (k n : Nat) (h : n < 256 ^ k) :
    natFromBeBytes (natToBeBytes k n) = n := by
  induction k generalizing n with
  | zero =>
    simp [Nat.pow_zero] at h
    simp [natToBeBytes, natFromBeBytes, h]
  | succ k ih =>
    rw [natToBeBytes, natFromBeBytes_append, ih (n / 256) ?_]
    · omega
    · rw [pow_succ'] at h
      exact Nat.div_lt_of_lt_mul h

/-! ### Claim theorems -/

/-- C1: when bind succeeded and both tasks completed within the deadline,
`OsNsConnector::connect` follows the joint-outcome table exactly: the
`(SentCookie, ReceivedCookie)` cell asserts cookie equality and returns
`Ok { source_addr = peer }` with the peer address the server observed, the
`(Refused, Aborted)` cell returns `Refused`, and the two invalid cells panic
(`unreachable!`) rather than returning an `Effect`. -/
theorem connect_joint_outcome_table (env : ConnectEnv)
    (hbind : env.bindResult = .ok ()) :
    (∀ tx rx, env.clientResult = .val (.ok (.SentCookie tx)) →
        serverJoined env = .val (.ok (.ReceivedCookie rx)) →
        OsNsConnector.connectResult env =
          if rx.cookie = tx.cookie then .ok (.Ok rx.peer_addr) else .panicked)
    ∧ (∀ tx, env.clientResult = .val (.ok (.SentCookie tx)) →
        serverJoined env = .val (.ok .Aborted) →
        OsNsConnector.connectResult env = .panicked)
    ∧ (env.clientResult = .val (.ok .Refused) →
        serverJoined env = .val (.ok .Aborted) →
        OsNsConnector.connectResult env = .ok .Refused)
    ∧ (∀ rx, env.clientResult = .val (.ok .Refused) →
        serverJoined env = .val (.ok (.ReceivedCookie rx)) →
        OsNsConnector.connectResult env = .panicked) := by
  refine ⟨?_, ?_, ?_, ?_⟩
  · intro tx rx hc hs
    simp [OsNsConnector.connectResult, OsNsConnector.connect, hbind, hc, hs,
      tryJoin, joinOutcomes]
  · intro tx hc hs
    simp [OsNsConnector.connectResult, OsNsConnector.connect, hbind, hc, hs,
      tryJoin, joinOutcomes]
  · intro hc hs
    simp [OsNsConnector.connectResult, OsNsConnector.connect, hbind, hc, hs,
      tryJoin, joinOutcomes]
  · intro rx hc hs
    simp [OsNsConnector.connectResult, OsNsConnector.connect, hbind, hc, hs,
      tryJoin, joinOutcomes]

/-- Witness for C1: a concrete probe in which the client sent cookie 5 and
the server received cookie 5 from `v4 7` yields `Ok { source_addr = v4 7 }`. -/
theorem connect_joint_outcome_table_witness :
    OsNsConnector.connectResult
      ⟨.ok (), .val (.ok (.SentCookie ⟨5⟩)),
        .val (.ok (.ReceivedCookie ⟨5, .v4 7⟩)), false⟩ = .ok (.Ok (.v4 7)) := by
  have h :=
    (connect_joint_outcome_table
        ⟨.ok (), .val (.ok (.SentCookie ⟨5⟩)),
          .val (.ok (.ReceivedCookie ⟨5, .v4 7⟩)), false⟩ rfl).1
      ⟨5⟩ ⟨5, .v4 7⟩ rfl (by decide)
  simpa using h

/-- C2: `OsNsConnPath::connect` dispatches every spec, TCP or UDP, to
`connect_with_timeout` with the hard 2-second deadline, and whenever that
deadline elapses before the joint computation completes the probe result is
`Ok(Unreachable)` — an outcome, never an error. -/
theorem connect_two_second_timeout_unreachable (spec : ConnSpec) (env : ProbeEnv) :
    OsNsConnPath.connect spec env = OsNsConnector.connect_with_timeout 2 env
    ∧ (env.timedOut = true → OsNsConnPath.connect spec env = .ok .Unreachable) := by
  constructor
  · cases spec <;> rfl
  · intro ht
    cases spec <;>
      simp [OsNsConnPath.connect, OsNsConnector.connect_with_timeout, ht]

/-- Witness for C2: a concrete timed-out TCP probe returns `Ok(Unreachable)`. -/
theorem connect_two_second_timeout_unreachable_witness :
    OsNsConnPath.connect (.Tcp 80)
      ⟨⟨.ok (), .val (.ok .Refused), .val (.ok .Aborted), false⟩, true⟩ =
      .ok .Unreachable :=
  (connect_two_second_timeout_unreachable (.Tcp 80)
    ⟨⟨.ok (), .val (.ok .Refused), .val (.ok .Aborted), false⟩, true⟩).2 rfl

/-- C3: the bind event opens every probe trace, so the server socket is
bound before any client action; and a bind error makes `connect` return
exactly that error with a trace containing no client or server start event,
hence no task was spawned and no `Effect` is produced. -/
theorem connect_binds_server_first (env : ConnectEnv) :
    (OsNsConnector.connect env).1.head? = some .bindServer
    ∧ (∀ e, env.bindResult = .error e →
        OsNsConnector.connect env = ([.bindServer], .err e)) := by
  constructor
  · cases hb : env.bindResult <;> simp [OsNsConnector.connect, hb]
  · intro e he
    simp [OsNsConnector.connect, he]

/-- Witness for C3: a concrete probe whose bind fails with `EACCES` returns
that error after the bind event alone. -/
theorem connect_binds_server_first_witness :
    OsNsConnector.connect
      ⟨.error ⟨some 13⟩, .val (.ok .Refused), .val (.ok .Aborted), false⟩ =
      ([.bindServer], .err ⟨some 13⟩) :=
  (connect_binds_server_first
    ⟨.error ⟨some 13⟩, .val (.ok .Refused), .val (.ok .Aborted), false⟩).2
    ⟨some 13⟩ rfl

/-- C5: the abort handle fires exactly when the client completed with
`Refused` or with an error; when it fires while the server is still pending,
the `Abortable` wrapper resolves the server side to the normal
`Ok(ServerStatus::Aborted)` outcome, not an error; and the probe trace
records the abort exactly when the hook fired, so the server task is always
either aborted or joined. -/
theorem client_refusal_cancels_server (env : ConnectEnv) :
    (clientTriggersAbort env.clientResult = true ↔
      env.clientResult = .val (.ok .Refused)
        ∨ ∃ e, env.clientResult = .val (.error e))
    ∧ (clientTriggersAbort env.clientResult = true →
        env.serverDoneBeforeAbort = false →
        serverJoined env = .val (.ok .Aborted))
    ∧ (env.bindResult = .ok () →
        (ProbeEvent.abortServer ∈ (OsNsConnector.connect env).1 ↔
          clientTriggersAbort env.clientResult = true)) := by
  refine ⟨?_, ?_, ?_⟩
  · rcases hc : env.clientResult with r | _
    · rcases r with e | c
      · simp [clientTriggersAbort]
      · cases c <;> simp [clientTriggersAbort]
    · simp [clientTriggersAbort]
  · intro h1 h2
    simp [serverJoined, h1, h2]
  · intro hb
    cases h : clientTriggersAbort env.clientResult <;>
      simp [OsNsConnector.connect, hb, h]

/-- Witness for C5: with a refused client and a still-pending server, the
joined server status is `Aborted`. -/
theorem client_refusal_cancels_server_witness :
    serverJoined ⟨.ok (), .val (.ok .Refused), .val (.error ⟨none⟩), false⟩ =
      .val (.ok .Aborted) :=
  (client_refusal_cancels_server
    ⟨.ok (), .val (.ok .Refused), .val (.error ⟨none⟩), false⟩).2.1 rfl rfl

/-- C8: `OsNs::scoped` returns exactly `f`'s result (a panic of `f`
included) when `setns` succeeded, and when `setns` fails it returns the
kernel error verbatim, with a result independent of `f` — `f` is never
invoked. -/
theorem scoped_run_or_setns_error {T : Type} (e : IoError)
    (f g : Unit → TaskResult (Except IoError T)) :
    OsNs.scoped (.ok ()) f = f ()
    ∧ OsNs.scoped (.error e) f = .val (.error e)
    ∧ OsNs.scoped (.error e) f = OsNs.scoped (.error e) g :=
  ⟨rfl, rfl, rfl⟩

/-- C10: `Tcp::client` never reads its `_source_addr` parameter: for any two
source addresses and identical kernel behaviour the client performs the same
socket operations (family and destination are both taken from
`target_addr`) and returns the same outcome. -/
theorem tcp_client_ignores_source_addr (port : Nat) (a b taddr : IpAddr)
    (env : TcpClientEnv) :
    Tcp.client port a taddr env = Tcp.client port b taddr env := rfl

/-- C4: for both transports the client maps the kernel's connection-refused
signal to `Refused`, a successful cookie send to `SentCookie { cookie }`,
and any other socket error to a fatal `io::Error`: the TCP client's
`connect()` outcome is `Refused` exactly on `ECONNREFUSED` (and socket
creation errors are fatal), while the UDP client, after sending the cookie,
maps a pending asynchronous error of `None` to `SentCookie`,
`Some(ECONNREFUSED)` to `Refused`, and any other pending error to a fatal
error. -/
theorem client_refused_mapping (port : Nat) (saddr taddr : IpAddr)
    (tenv : TcpClientEnv) (uenv : UdpClientEnv) :
    ((∀ e, tenv.newSocket taddr.family = .error e →
        Tcp.client port saddr taddr tenv = .error e)
      ∧ (tenv.newSocket taddr.family = .ok () →
          ((∀ e, tenv.connect taddr port = .error e →
              Tcp.client port saddr taddr tenv =
                if e.raw = some ECONNREFUSED then .ok .Refused else .error e)
            ∧ (tenv.connect taddr port = .ok () →
                tenv.write (u128ToBeBytes tenv.cookie) = .ok () →
                Tcp.client port saddr taddr tenv =
                  .ok (.SentCookie ⟨tenv.cookie⟩)))))
    ∧ (uenv.bind saddr 0 = .ok () → uenv.connect taddr port = .ok () →
        uenv.send (u128ToBeBytes uenv.cookie) = .ok () →
        ((uenv.takeError = .ok none →
            Udp.client port saddr taddr uenv = .ok (.SentCookie ⟨uenv.cookie⟩))
          ∧ (∀ e, uenv.takeError = .ok (some e) →
              Udp.client port saddr taddr uenv =
                if e.raw = some ECONNREFUSED then .ok .Refused else .error e)
          ∧ (∀ e, uenv.takeError = .error e →
              Udp.client port saddr taddr uenv = .error e))) := by
  refine ⟨⟨?_, ?_⟩, ?_⟩
  · intro e he
    simp [Tcp.client, he]
  · intro hsock
    constructor
    · intro e hconn
      simp [Tcp.client, hsock, hconn]
    · intro hconn hwrite
      simp [Tcp.client, hsock, hconn, hwrite]
  · intro hbind hconn hsend
    refine ⟨?_, ?_, ?_⟩
    · intro htake
      simp [Udp.client, hbind, hconn, hsend, htake]
    · intro e htake
      simp [Udp.client, hbind, hconn, hsend, htake]
    · intro e htake
      simp [Udp.client, hbind, hconn, hsend, htake]

/-- Witness for C4: a concrete UDP client whose pending asynchronous error
is `ECONNREFUSED` returns `Refused`. -/
theorem client_refused_mapping_witness :
    Udp.client 53 (.v4 1) (.v4 2)
      ⟨fun _ _ => .ok (), fun _ _ => .ok (), 9, fun _ => .ok (),
        .ok (some ⟨some 111⟩)⟩ = .ok .Refused := by
  have h :=
    ((client_refused_mapping 53 (.v4 1) (.v4 2)
        ⟨fun _ => .ok (), fun _ _ => .ok (), 9, fun _ => .ok ()⟩
        ⟨fun _ _ => .ok (), fun _ _ => .ok (), 9, fun _ => .ok (),
          .ok (some ⟨some 111⟩)⟩).2
      rfl rfl rfl).2.1 ⟨some 111⟩ rfl
  simpa [ECONNREFUSED] using h

/-- C6 counterexample: a 17-byte datagram does not panic — `recv_from` into
the 16-byte buffer reports size 16, the assertion passes, and the server
returns `ReceivedCookie` decoded from the first 16 bytes. -/
theorem udp_server_long_datagram_no_panic :
    Udp.server ⟨.ok (List.replicate 17 1, ⟨.v4 0, 9⟩)⟩ ≠ .panic
    ∧ Udp.server ⟨.ok (List.replicate 17 1, ⟨.v4 0, 9⟩)⟩ =
        .val (.ok (.ReceivedCookie
          ⟨u128FromBeBytes (List.replicate 16 1), .v4 0⟩)) := by
  constructor <;> decide

/-- C6 (amended): a `recv_from` error propagates; a datagram shorter than
16 bytes fails `assert_eq!(size, 16)` and panics; a datagram of 16 bytes or
more yields `ReceivedCookie` whose cookie is the first 16 payload bytes
decoded big-endian (excess bytes discarded by `recv_from`) and whose
`peer_addr` is the sender's IP address. -/
theorem udp_server_length_check (env : UdpServerEnv) :
    (∀ e, env.recvFrom = .error e → Udp.server env = .val (.error e))
    ∧ (∀ bytes peer, env.recvFrom = .ok (bytes, peer) →
        (bytes.length < 16 → Udp.server env = .panic)
        ∧ (16 ≤ bytes.length →
            Udp.server env = .val (.ok (.ReceivedCookie
              ⟨u128FromBeBytes (bytes.take 16), peer.ip⟩)))) := by
  constructor
  · intro e he
    simp [Udp.server, he]
  · intro bytes peer he
    constructor
    · intro hlen
      have hm : ¬ min bytes.length 16 = 16 := by omega
      simp [Udp.server, he, hm]
    · intro hlen
      have hm : min bytes.length 16 = 16 := by omega
      simp [Udp.server, he, hm]

/-- Witness for C6 (amended): a concrete 2-byte datagram panics. -/
theorem udp_server_length_check_witness :
    Udp.server ⟨.ok ([1, 2], ⟨.v6 3, 4⟩)⟩ = .panic :=
  ((udp_server_length_check ⟨.ok ([1, 2], ⟨.v6 3, 4⟩)⟩).2 [1, 2] ⟨.v6 3, 4⟩
    rfl).1 (by decide)

/-- C7: the 16-byte big-endian cookie encoding round-trips for every
128-bit value, and whenever the coordinator returns `Ok` the server's
received cookie equals the client's sent cookie (the `assert_eq!` passed)
and the reported `source_addr` is the peer address the server observed. -/
theorem cookie_roundtrip_ok_implies_equal :
    (∀ c : Nat, c < 2 ^ 128 → u128FromBeBytes (u128ToBeBytes c) = c)
    ∧ (∀ (env : ConnectEnv) (a : IpAddr),
        OsNsConnector.connectResult env = .ok (.Ok a) →
        ∃ tx rx, env.clientResult = .val (.ok (.SentCookie tx))
          ∧ serverJoined env = .val (.ok (.ReceivedCookie rx))
          ∧ rx.cookie = tx.cookie ∧ rx.peer_addr = a) := by
  constructor
  · intro c hc
    have h : (256 : Nat) ^ 16 = 2 ^ 128 := by norm_num
    exact natFromBeBytes_natToBeBytes 16 c (by rw [h]; exact hc)
  · intro env a h
    rcases hb : env.bindResult with e | u
    · simp [OsNsConnector.connectResult, OsNsConnector.connect, hb] at h
    · simp only [OsNsConnector.connectResult, OsNsConnector.connect, hb] at h
      rcases hc : env.clientResult with r | _
      · rcases r with e | c
        · rw [hc] at h; simp [tryJoin] at h
        · rcases hs : serverJoined env with r | _
          · rcases r with e | s
            · rw [hc, hs] at h; simp [tryJoin] at h
            · rw [hc, hs] at h
              simp only [tryJoin] at h
              cases c with
              | SentCookie tx =>
                cases s with
                | ReceivedCookie rx =>
                  by_cases hck : rx.cookie = tx.cookie
                  · refine ⟨tx, rx, rfl, rfl, hck, ?_⟩
                    simpa [joinOutcomes, hck] using h
                  · simp [joinOutcomes, hck] at h
                | Aborted => simp [joinOutcomes] at h
              | Refused => cases s <;> simp [joinOutcomes] at h
          · rw [hc, hs] at h; simp [tryJoin] at h
      · rw [hc] at h; simp [tryJoin] at h

/-- Witness for C7: round-trip at the concrete cookie 300. -/
theorem cookie_roundtrip_ok_implies_equal_witness :
    u128FromBeBytes (u128ToBeBytes 300) = 300 :=
  cookie_roundtrip_ok_implies_equal.1 300 (by norm_num)

/-- C9 counterexample: the `ConnSpec` type does not enforce `port ≥ 1` —
`Tcp { port: 0 }` is a well-formed value whose port is 0. -/
theorem connSpec_port_zero_representable :
    ¬ ∀ s : ConnSpec, s.wf → 1 ≤ s.port := by
  intro h
  exact absurd (h (.Tcp 0) (by decide)) (by decide)

/-- C9 (amended): a `ConnSpec` port is any `u16`: both variants are
well-formed at every port below 65536, 0 included, and `connect` applies no
port check — every spec is dispatched unchanged to the timed probe. -/
theorem connSpec_any_u16_port_accepted :
    (∀ p : Nat, p < 65536 → ConnSpec.wf (.Tcp p) ∧ ConnSpec.wf (.Udp p))
    ∧ (∀ (s : ConnSpec) (env : ProbeEnv),
        OsNsConnPath.connect s env =
          OsNsConnector.connect_with_timeout connectDuration env) := by
  constructor
  · intro p hp
    exact ⟨hp, hp⟩
  · intro s env
    cases s <;> rfl

/-- Witness for C9 (amended): port 0 itself is accepted in both variants. -/
theorem connSpec_any_u16_port_accepted_witness :
    ConnSpec.wf (.Tcp 0) ∧ ConnSpec.wf (.Udp 0) :=
  connSpec_any_u16_port_accepted.1 0 (by norm_num)

end Firebreak
